import Mathlib

/-!
Verification development for the docker-build-push CI action.

The repository is a thin orchestrator around an external container CLI.
We give a shallow embedding: every subprocess call is recorded as an
`Invocation` (command, argument vector, optional stdin payload), and the
outcome of each call is supplied by an environment `ExecEnv` mapping an
invocation to its exit code or a spawn failure.  Each source function is
translated into a pure Lean function returning its result together with
the list of invocations it recorded and the log lines it emitted.

Sources embedded:
  - src/src/index.ts            (`run`, `docker`, input validation)
  - src/src/ensure-docker-engine.ts
  - src/src/registry-login.ts
  - src/unnamed/part_001        (`push` without latest, `checkImageExists`)
  - src/src/build.ts            (classic `build`: join + docker build)
  - src/unnamed/part_003        (buildx `build`: resolve + buildx --push)
  - src/src/push.ts             (`push` that also publishes `:latest`)
-/

namespace DockerBuildPush

/-- A spawned subprocess: command, argument vector, optional stdin payload.
Mirrors the `exec.exec(tool, args, {input})` calls of the source. -/
structure Invocation where
  cmd : String
  argv : List String
  stdinData : Option String
deriving DecidableEq, Repr

/-- Outcome of attempting to execute an invocation: either the process ran
and exited with a code, or spawning/execution itself failed with a message. -/
inductive ExecOutcome where
  | exit (code : Int)
  | raise (msg : String)
deriving DecidableEq, Repr

/-- The ambient execution environment: what each subprocess call would do. -/
def ExecEnv : Type := Invocation → ExecOutcome

/-- Log lines emitted through the host logging channel
(`core.info` / `core.warning`). -/
inductive LogEntry where
  | info (s : String)
  | warning (s : String)
deriving DecidableEq, Repr

/-- JavaScript string interpolation of an `Error` value (`${error}`) prints
`Error: <message>`; this helper models that. -/
def errStr (m : String) : String := "Error: " ++ m

/-- Semantics of `exec.exec` with default options: resolves with the exit
code on a zero exit, rejects on a non-zero exit or a spawn failure.
The rejection text of the library names the tool and the exit code; no
claim depends on its exact wording beyond it not containing image refs. -/
def execDefault (env : ExecEnv) (inv : Invocation) : Except String Int :=
  match env inv with
  | .exit c => if c = 0 then .ok 0 else .error ("The process failed with exit code " ++ toString c)
  | .raise m => .error m

/-- Semantics of `exec.exec` with `ignoreReturnCode: true`: resolves with
the exit code whatever it is; still rejects on a spawn failure. -/
def execIgnore (env : ExecEnv) (inv : Invocation) : Except String Int :=
  match env inv with
  | .exit c => .ok c
  | .raise m => .error m

/-- The fully qualified reference `registry-url/image-name:version`. -/
def fullImageName (url name ver : String) : String :=
  url ++ "/" ++ name ++ ":" ++ ver

/-- Node `path.join(p, n)` for the path shapes the action uses
(normalization of duplicate separators elided). -/
def joinPath (p n : String) : String :=
  if p = "" then n else p ++ "/" ++ n

/-- Node `path.resolve(p)` against a current working directory: an absolute
path is kept, otherwise it is resolved against `cwd`. -/
def resolvePath (cwd p : String) : String :=
  if p.data.head? = some '/' then p
  else if p = "" then cwd
  else cwd ++ "/" ++ p

/-- Whitespace character class used by JavaScript `trim` and `\s` for the
inputs this action sees. -/
def isWsChar (c : Char) : Bool :=
  c == ' ' || c == '\t' || c == '\n' || c == '\r'

/-- JavaScript `String.prototype.trim` over the character list. -/
def jsTrim (s : String) : String :=
  ⟨((s.data.dropWhile isWsChar).reverse.dropWhile isWsChar).reverse⟩

/-- Splits a character list into its maximal whitespace-free runs,
accumulating the current run in reverse. -/
def wsSplitAux : List Char → List Char → List (List Char)
  | [], acc => if acc.isEmpty then [] else [acc.reverse]
  | c :: cs, acc =>
      if isWsChar c then
        if acc.isEmpty then wsSplitAux cs [] else acc.reverse :: wsSplitAux cs []
      else wsSplitAux cs (c :: acc)

/-- JavaScript `s.trim().split(/\s+/)` exactly as the buildx build uses it:
a blank string splits to `[""]` (a single empty token); a non-blank string
splits to its maximal whitespace-free runs. -/
def jsSplitWs (s : String) : List String :=
  let t := jsTrim s
  if t = "" then [""]
  else (wsSplitAux t.data []).map fun l => ⟨l⟩

/-- The `docker --version` probe of src/src/ensure-docker-engine.ts. -/
def engineInvocation : Invocation :=
  ⟨"docker", ["--version"], none⟩

/-- The `docker login url -u user --password-stdin` call with the password fed
through stdin, from src/src/registry-login.ts. -/
def loginInvocation (url user pw : String) : Invocation :=
  ⟨"docker", ["login", url, "-u", user, "--password-stdin"], some pw⟩

/-- The `docker manifest inspect registry/name:version` call of checkImageExists. -/
def probeInvocation (url name ver : String) : Invocation :=
  ⟨"docker", ["manifest", "inspect", fullImageName url name ver], none⟩

/-- The `docker pull registry/name:latest` call of the buildx build. -/
def pullInvocation (url name : String) : Invocation :=
  ⟨"docker", ["pull", url ++ "/" ++ name ++ ":latest"], none⟩

/-- The call `docker build -t name:version -f dockerfilePath projectPath`
from src/src/build.ts. -/
def classicBuildInvocation (projectPath dfp name ver : String) : Invocation :=
  ⟨"docker", ["build", "-t", name ++ ":" ++ ver, "-f", dfp, projectPath], none⟩

/-- The call `docker buildx build -t remoteRef -f dockerfilePath projectPath
<tokenized args> --push` from src/unnamed/part_003.  (The source also
forwards the process environment to the subprocess; that does not affect
the argument vector or the trace and is elided.) -/
def buildxInvocation (dfp projectPath remoteRef : String) (argTokens : List String) : Invocation :=
  ⟨"docker", ["buildx", "build", "-t", remoteRef, "-f", dfp, projectPath] ++ argTokens ++ ["--push"], none⟩

/-- A `docker tag src target` call. -/
def tagInvocation (src target : String) : Invocation :=
  ⟨"docker", ["tag", src, target], none⟩

/-- A `docker push ref` call. -/
def pushInvocation (ref : String) : Invocation :=
  ⟨"docker", ["push", ref], none⟩

/-- src/src/ensure-docker-engine.ts: runs `docker --version`; any failure
is rewrapped as the engine-unavailable error. -/
def ensureDockerEngine (env : ExecEnv) :
    Except String Unit × List Invocation × List LogEntry :=
  match execDefault env engineInvocation with
  | .ok _ => (.ok (), [engineInvocation], [.info "✅ Docker engine is available and ready"])
  | .error m =>
      (.error ("❌ Docker is not available. Please ensure Docker is installed and running. Error: " ++ errStr m),
       [engineInvocation], [])

/-- src/src/registry-login.ts: `docker login` with the password passed via
stdin; any failure is rewrapped as a login error. -/
def registryLogin (env : ExecEnv) (url user pw : String) :
    Except String Unit × List Invocation × List LogEntry :=
  match execDefault env (loginInvocation url user pw) with
  | .ok _ => (.ok (), [loginInvocation url user pw],
      [.info ("✅ Successfully logged into registry: " ++ url)])
  | .error m => (.error ("❌ Failed to login to registry: " ++ errStr m),
      [loginInvocation url user pw], [])

/-- checkImageExists from src/unnamed/part_001: `docker manifest inspect`
with `ignoreReturnCode`; returns `exitCode === 0`, and any execution error
is caught, logged, and collapsed to `false`.  The return type is `Bool`
(not `Except`): the function never raises. -/
def checkImageExists (env : ExecEnv) (url name ver : String) :
    Bool × List Invocation × List LogEntry :=
  match execIgnore env (probeInvocation url name ver) with
  | .ok c =>
      (c == 0, [probeInvocation url name ver],
       [.info ("📦 Image " ++ fullImageName url name ver ++
          (if c == 0 then " exists" else " does not exist"))])
  | .error m =>
      (false, [probeInvocation url name ver],
       [.info ("❌ Error checking image existence: " ++ errStr m)])

/-- build from src/src/build.ts (classic variant): joins project path and
Dockerfile name, checks existence before spawning anything, then runs
`docker build`.  `fs` is the filesystem existence oracle (`existsSync`). -/
def buildClassic (env : ExecEnv) (fs : String → Bool)
    (projectPath dockerfileName imageName version : String) :
    Except String Unit × List Invocation × List LogEntry :=
  let dfp := joinPath projectPath dockerfileName
  if fs dfp then
    match execDefault env (classicBuildInvocation projectPath dfp imageName version) with
    | .ok _ => (.ok (), [classicBuildInvocation projectPath dfp imageName version],
        [.info ("✅ Successfully built: " ++ imageName ++ ":" ++ version)])
    | .error m => (.error ("❌ Failed to build: " ++ errStr m),
        [classicBuildInvocation projectPath dfp imageName version], [])
  else
    (.error ("❌ Failed to build: " ++ errStr ("❌ Dockerfile not found at: " ++ dfp)), [], [])

/-- The best-effort `docker pull registry/name:latest` of the buildx build:
a failure is demoted to a warning log; the pull invocation is recorded
either way. -/
def pullPhase (env : ExecEnv) (url name : String) :
    List Invocation × List LogEntry :=
  match execDefault env (pullInvocation url name) with
  | .ok _ => ([pullInvocation url name], [])
  | .error m => ([pullInvocation url name],
      [.warning ("⚠️ Failed to pull " ++ url ++ "/" ++ name ++ ":latest: " ++ errStr m)])

/-- build from src/unnamed/part_003 (buildx variant): resolves the
Dockerfile name against the working directory (note: NOT joined with the
project path), pre-flight checks existence, optionally pulls `:latest`
best-effort, then runs `docker buildx build ... --push` with the
whitespace-tokenized extra arguments spliced in before `--push`. -/
def buildBuildx (env : ExecEnv) (fs : String → Bool) (cwd : String)
    (projectPath dockerfileName imageName version registryUrl argsRaw : String)
    (pullLatest : Bool) :
    Except String Unit × List Invocation × List LogEntry :=
  let dfp := resolvePath cwd dockerfileName
  if fs dfp then
    let pp := if pullLatest then pullPhase env registryUrl imageName else ([], [])
    let binv := buildxInvocation dfp projectPath
        (fullImageName registryUrl imageName version) (jsSplitWs argsRaw)
    match execDefault env binv with
    | .ok _ => (.ok (), pp.1 ++ [binv],
        pp.2 ++ [.info ("✅ Successfully built: " ++ imageName ++ ":" ++ version)])
    | .error m => (.error ("❌ Failed to build: " ++ errStr m), pp.1 ++ [binv], pp.2)
  else
    (.error ("❌ Failed to build: " ++ errStr ("❌ Dockerfile not found at: " ++ resolvePath cwd dockerfileName)), [], [])

/-- The error text of src/src/push.ts: always interpolates the VERSIONED
remote reference, whichever of the four operations failed. -/
def pushFail (remoteRef m : String) : String :=
  "❌ Failed to push " ++ remoteRef ++ ": " ++ errStr m

/-- push from src/src/push.ts: tag and push the versioned reference, then
tag and push `:latest`; the first failure aborts, wrapped by `pushFail`. -/
def pushWithLatest (env : ExecEnv) (registryUrl imageName version : String) :
    Except String Unit × List Invocation × List LogEntry :=
  let localRef := imageName ++ ":" ++ version
  let remoteRef := fullImageName registryUrl imageName version
  let latestRef := registryUrl ++ "/" ++ imageName ++ ":latest"
  let i1 := tagInvocation localRef remoteRef
  let i2 := pushInvocation remoteRef
  let i3 := tagInvocation localRef latestRef
  let i4 := pushInvocation latestRef
  match execDefault env i1 with
  | .error m => (.error (pushFail remoteRef m), [i1], [])
  | .ok _ =>
    match execDefault env i2 with
    | .error m => (.error (pushFail remoteRef m), [i1, i2], [])
    | .ok _ =>
      match execDefault env i3 with
      | .error m => (.error (pushFail remoteRef m), [i1, i2, i3],
          [.info ("✅ Successfully pushed: " ++ remoteRef)])
      | .ok _ =>
        match execDefault env i4 with
        | .error m => (.error (pushFail remoteRef m), [i1, i2, i3, i4],
            [.info ("✅ Successfully pushed: " ++ remoteRef)])
        | .ok _ => (.ok (), [i1, i2, i3, i4],
            [.info ("✅ Successfully pushed: " ++ remoteRef),
             .info ("✅ Successfully pushed as latest: " ++ latestRef)])

/-- The Input record of src/src/index.ts. -/
structure Input where
  projectPath : String
  imageName : String
  dockerfileName : String
  version : String
  registryUrl : String
  registryUsername : String
  registryPassword : String
  args : String
  pullLatest : Bool
deriving DecidableEq, Repr

/-- The Output record of src/src/index.ts. -/
structure Output where
  image : String
  tag : String
  href : String
  skipped : Bool
deriving DecidableEq, Repr

/-- Which build revision the orchestrator is linked against: the classic
build of src/src/build.ts or the buildx build of src/unnamed/part_003.
The orchestrator source (src/src/index.ts) imports `./build.js`; both
revisions of that module appear in the repository, so the composition is
parameterized by the choice. -/
inductive BuilderKind where
  | classic
  | buildx
deriving DecidableEq, Repr

/-- Dispatch the `build(...)` call of src/src/index.ts to the selected
build revision, forwarding the input fields each revision consumes. -/
def runBuild (bk : BuilderKind) (env : ExecEnv) (fs : String → Bool)
    (cwd : String) (i : Input) :
    Except String Unit × List Invocation × List LogEntry :=
  match bk with
  | .classic => buildClassic env fs i.projectPath i.dockerfileName i.imageName i.version
  | .buildx => buildBuildx env fs cwd i.projectPath i.dockerfileName i.imageName
      i.version i.registryUrl i.args i.pullLatest

/-- The rewrapping applied by the catch block of `docker` in
src/src/index.ts (it interpolates `error.message`). -/
def dockerFail (m : String) : String := "❌ Docker push failed: " ++ m

/-- The `docker` orchestrator of src/src/index.ts: engine check, login,
existence probe, then either skip (probe true) or build and push.  The
result is paired with the concatenated subprocess trace and logs. -/
def docker (bk : BuilderKind) (env : ExecEnv) (fs : String → Bool)
    (cwd : String) (i : Input) :
    Except String Output × List Invocation × List LogEntry :=
  match ensureDockerEngine env with
  | (.error m, t1, l1) => (.error (dockerFail m), t1, l1)
  | (.ok _, t1, l1) =>
    match registryLogin env i.registryUrl i.registryUsername i.registryPassword with
    | (.error m, t2, l2) => (.error (dockerFail m), t1 ++ t2, l1 ++ l2)
    | (.ok _, t2, l2) =>
      match checkImageExists env i.registryUrl i.imageName i.version with
      | (true, t3, l3) =>
          (.ok ⟨i.imageName, i.version, fullImageName i.registryUrl i.imageName i.version, true⟩,
           t1 ++ t2 ++ t3,
           l1 ++ l2 ++ l3 ++ [.info "⏭️  Image already exists, skipping build and push"])
      | (false, t3, l3) =>
        match runBuild bk env fs cwd i with
        | (.error m, t4, l4) =>
            (.error (dockerFail m), t1 ++ t2 ++ t3 ++ t4, l1 ++ l2 ++ l3 ++ l4)
        | (.ok _, t4, l4) =>
          match pushWithLatest env i.registryUrl i.imageName i.version with
          | (.error m, t5, l5) =>
              (.error (dockerFail m), t1 ++ t2 ++ t3 ++ t4 ++ t5, l1 ++ l2 ++ l3 ++ l4 ++ l5)
          | (.ok _, t5, l5) =>
              (.ok ⟨i.imageName, i.version, fullImageName i.registryUrl i.imageName i.version, false⟩,
               t1 ++ t2 ++ t3 ++ t4 ++ t5,
               l1 ++ l2 ++ l3 ++ l4 ++ l5 ++ [.info "✅ Docker push process completed successfully"])

/-- The required-field checks of `run` in src/src/index.ts, in source
order; a JavaScript falsy string is exactly the empty string here. -/
def validationError (i : Input) : Option String :=
  if i.projectPath = "" then some "project-path is required"
  else if i.imageName = "" then some "image-name is required"
  else if i.version = "" then some "version is required"
  else if i.registryUrl = "" then some "registry-url is required"
  else if i.registryUsername = "" then some "registry-username is required"
  else if i.registryPassword = "" then some "registry-password is required"
  else none

/-- What a run reports: the structured outputs written on success (as
key/value pairs, in emission order) and the failure report, if any. -/
structure RunOutcome where
  outputs : List (String × String)
  failed : Option String
deriving DecidableEq, Repr

/-- The `run` entry point of src/src/index.ts: validate the input record,
invoke the orchestrator, emit the four outputs on success; any thrown
error is caught once and converted to a single failure report.  (The
mirroring of the same four lines into the GITHUB_OUTPUT file is elided:
it duplicates `outputs` verbatim.) -/
def runAction (bk : BuilderKind) (env : ExecEnv) (fs : String → Bool)
    (cwd : String) (i : Input) : RunOutcome × List Invocation :=
  match validationError i with
  | some m => (⟨[], some ("❌ Action failed: " ++ m)⟩, [])
  | none =>
    match docker bk env fs cwd i with
    | (.ok r, t, _) =>
        (⟨[("image", r.image), ("tag", r.tag), ("href", r.href),
           ("skipped", if r.skipped then "true" else "false")], none⟩, t)
    | (.error m, t, _) => (⟨[], some ("❌ Action failed: " ++ m)⟩, t)

/-- Concrete environment in which every subprocess exits zero. -/
def envOk : ExecEnv := fun _ => .exit 0

/-- Concrete environment in which only `docker pull` fails. -/
def envPullFails : ExecEnv := fun inv =>
  if inv.argv.head? == some "pull" then .exit 1 else .exit 0

/-- Concrete environment in which only the manifest probe fails
(image absent), everything else exits zero. -/
def envProbeMiss : ExecEnv := fun inv =>
  if inv.argv.head? == some "manifest" then .exit 1 else .exit 0

/-- Concrete environment in which only `docker push reg/app:latest`
fails, everything else exits zero. -/
def envLatestPushFails : ExecEnv := fun inv =>
  if inv.argv == ["push", "reg/app:latest"] then .exit 1 else .exit 0

/-- Filesystem oracle on which every path exists. -/
def fsAll : String → Bool := fun _ => true

/-- A standard concrete valid input record. -/
def iStd : Input :=
  ⟨"my-app", "app", "Dockerfile", "v1", "reg", "bob", "hunter2", "", true⟩

/-- A concrete input record with an empty required field (project path). -/
def iEmpty : Input :=
  ⟨"", "app", "Dockerfile", "v1", "reg", "bob", "hunter2", "", true⟩

/-- Recognizes a build or publish subprocess by its subcommand token:
`build`, `buildx`, `push`, `tag` or `pull`. -/
def isBuildOrPushInv (inv : Invocation) : Bool :=
  inv.argv.head? == some "build" || inv.argv.head? == some "buildx"
    || inv.argv.head? == some "push" || inv.argv.head? == some "tag"
    || inv.argv.head? == some "pull"

/-- Recognizes a build invocation that pushes directly to the registry as
part of the build (`docker buildx build ... --push`). -/
def isIntegratedPushBuild (inv : Invocation) : Bool :=
  inv.argv.head? == some "buildx" && inv.argv.contains "--push"

/-- Recognizes a Publisher push subprocess (`docker push ...`). -/
def isPublisherPushInv (inv : Invocation) : Bool :=
  inv.argv.head? == some "push"

/-- Whether the first character list is an initial segment of the second. -/
def leadsWith : List Char → List Char → Bool
  | [], _ => true
  | _ :: _, [] => false
  | n :: ns, h :: hs => n == h && leadsWith ns hs

/-- Whether `needle` starts at some position of `hay`. -/
def containsSubAux (needle : List Char) : List Char → Bool
  | [] => leadsWith needle []
  | c :: rest => leadsWith needle (c :: rest) || containsSubAux needle rest

/-- Whether `needle` occurs as a contiguous substring of `hay`. -/
def containsSub (hay needle : String) : Bool :=
  containsSubAux needle.data hay.data

/-! ## Helper lemmas -/

/-- The engine check records exactly its version probe. -/
theorem ensureDockerEngine_trace (env : ExecEnv) :
    (ensureDockerEngine env).2.1 = [engineInvocation] := by
  unfold ensureDockerEngine
  cases h : execDefault env engineInvocation <;> simp [h]

/-- The login step records exactly its login invocation. -/
theorem registryLogin_trace (env : ExecEnv) (url user pw : String) :
    (registryLogin env url user pw).2.1 = [loginInvocation url user pw] := by
  unfold registryLogin
  cases h : execDefault env (loginInvocation url user pw) <;> simp [h]

/-- The existence probe records exactly its manifest inspection. -/
theorem checkImageExists_trace (env : ExecEnv) (url name ver : String) :
    (checkImageExists env url name ver).2.1 = [probeInvocation url name ver] := by
  unfold checkImageExists
  cases h : execIgnore env (probeInvocation url name ver) <;> simp [h]

/-- The default exec semantics only ever resolves with exit code zero. -/
theorem execDefault_ok (env : ExecEnv) (inv : Invocation) (c : Int)
    (h : execDefault env inv = .ok c) : c = 0 := by
  unfold execDefault at h
  cases henv : env inv with
  | exit k =>
      rw [henv] at h
      by_cases hk : k = 0
      · simp [hk] at h; omega
      · simp [hk] at h
  | raise m => rw [henv] at h; simp at h

/-- Any `docker` success carries the image name, version tag and the
fully qualified href derived from the input. -/
theorem docker_ok_meta (bk : BuilderKind) (env : ExecEnv) (fs : String → Bool)
    (cwd : String) (i : Input) (o : Output)
    (h : (docker bk env fs cwd i).1 = .ok o) :
    o.image = i.imageName ∧ o.tag = i.version
      ∧ o.href = fullImageName i.registryUrl i.imageName i.version := by
  unfold docker at h
  rcases hE : ensureDockerEngine env with ⟨re, t1, l1⟩
  rw [hE] at h
  cases re with
  | error m => simp at h
  | ok _ =>
    rcases hL : registryLogin env i.registryUrl i.registryUsername i.registryPassword with ⟨rl, t2, l2⟩
    rw [hL] at h
    cases rl with
    | error m => simp at h
    | ok _ =>
      rcases hC : checkImageExists env i.registryUrl i.imageName i.version with ⟨b, t3, l3⟩
      rw [hC] at h
      cases b with
      | true =>
        simp at h
        subst h
        exact ⟨rfl, rfl, rfl⟩
      | false =>
        rcases hB : runBuild bk env fs cwd i with ⟨rb, t4, l4⟩
        rw [hB] at h
        cases rb with
        | error m => simp at h
        | ok _ =>
          rcases hP : pushWithLatest env i.registryUrl i.imageName i.version with ⟨rp, t5, l5⟩
          rw [hP] at h
          cases rp with
          | error m => simp at h
          | ok _ =>
            simp at h
            subst h
            exact ⟨rfl, rfl, rfl⟩

/-- The classic build records at most its single build invocation. -/
theorem buildClassic_trace_sub (env : ExecEnv) (fs : String → Bool)
    (p d n v : String) :
    ∀ inv ∈ (buildClassic env fs p d n v).2.1,
      inv = classicBuildInvocation p (joinPath p d) n v := by
  intro inv h
  simp only [buildClassic] at h
  split at h
  · split at h
    · simp at h; exact h
    · simp at h; exact h
  · simp at h

/-- The push step records only its four tag/push invocations. -/
theorem pushWithLatest_trace_sub (env : ExecEnv) (u n v : String) :
    ∀ inv ∈ (pushWithLatest env u n v).2.1,
      inv = tagInvocation (n ++ ":" ++ v) (fullImageName u n v)
      ∨ inv = pushInvocation (fullImageName u n v)
      ∨ inv = tagInvocation (n ++ ":" ++ v) (u ++ "/" ++ n ++ ":latest")
      ∨ inv = pushInvocation (u ++ "/" ++ n ++ ":latest") := by
  intro inv h
  simp only [pushWithLatest] at h
  cases h1 : execDefault env (tagInvocation (n ++ ":" ++ v) (fullImageName u n v)) with
  | error m => rw [h1] at h; simp at h; tauto
  | ok _ =>
    rw [h1] at h
    cases h2 : execDefault env (pushInvocation (fullImageName u n v)) with
    | error m => rw [h2] at h; simp at h; tauto
    | ok _ =>
      rw [h2] at h
      cases h3 : execDefault env (tagInvocation (n ++ ":" ++ v) (u ++ "/" ++ n ++ ":latest")) with
      | error m => rw [h3] at h; simp at h; tauto
      | ok _ =>
        rw [h3] at h
        cases h4 : execDefault env (pushInvocation (u ++ "/" ++ n ++ ":latest")) with
        | error m => rw [h4] at h; simp at h; tauto
        | ok _ => rw [h4] at h; simp at h; tauto

/-- Every invocation of an orchestrator run is the engine probe, the
login, the existence probe, a build-step invocation, or a push-step
invocation. -/
theorem docker_trace_mem (bk : BuilderKind) (env : ExecEnv) (fs : String → Bool)
    (cwd : String) (i : Input) :
    ∀ inv ∈ (docker bk env fs cwd i).2.1,
      inv = engineInvocation
      ∨ inv = loginInvocation i.registryUrl i.registryUsername i.registryPassword
      ∨ inv = probeInvocation i.registryUrl i.imageName i.version
      ∨ inv ∈ (runBuild bk env fs cwd i).2.1
      ∨ inv ∈ (pushWithLatest env i.registryUrl i.imageName i.version).2.1 := by
  intro inv h
  unfold docker at h
  rcases hE : ensureDockerEngine env with ⟨re, t1, l1⟩
  rw [hE] at h
  have ht1 : t1 = [engineInvocation] := by
    have hh := ensureDockerEngine_trace env
    rw [hE] at hh
    exact hh
  subst ht1
  cases re with
  | error m => simp at h; simp [h]
  | ok _ =>
    rcases hL : registryLogin env i.registryUrl i.registryUsername i.registryPassword with ⟨rl, t2, l2⟩
    rw [hL] at h
    have ht2 : t2 = [loginInvocation i.registryUrl i.registryUsername i.registryPassword] := by
      have hh := registryLogin_trace env i.registryUrl i.registryUsername i.registryPassword
      rw [hL] at hh
      exact hh
    subst ht2
    cases rl with
    | error m => simp at h; tauto
    | ok _ =>
      rcases hC : checkImageExists env i.registryUrl i.imageName i.version with ⟨b, t3, l3⟩
      rw [hC] at h
      have ht3 : t3 = [probeInvocation i.registryUrl i.imageName i.version] := by
        have hh := checkImageExists_trace env i.registryUrl i.imageName i.version
        rw [hC] at hh
        exact hh
      subst ht3
      cases b with
      | true => simp at h; tauto
      | false =>
        rcases hB : runBuild bk env fs cwd i with ⟨rb, t4, l4⟩
        rw [hB] at h
        cases rb with
        | error m => simp at h ⊢; tauto
        | ok _ =>
          rcases hP : pushWithLatest env i.registryUrl i.imageName i.version with ⟨rp, t5, l5⟩
          rw [hP] at h
          cases rp with
          | error m => simp at h ⊢; tauto
          | ok _ => simp at h ⊢; tauto

/-! ## Claim theorems -/

/-- Claim C3: the existence prober never raises (its result type is `Bool`,
every failure path is caught): it returns `true` exactly when the
manifest-inspect subprocess exits zero, and every other outcome — a
non-zero exit or any execution error — resolves to `false`, while a
diagnostic line is always logged. -/
theorem claim_c3_probe_never_raises (env : ExecEnv) (url name ver : String) :
    ((checkImageExists env url name ver).1 = true
      ↔ env (probeInvocation url name ver) = .exit 0)
    ∧ (checkImageExists env url name ver).2.2 ≠ [] := by
  constructor
  · unfold checkImageExists execIgnore
    cases h : env (probeInvocation url name ver) with
    | exit c => simp [h]
    | raise m => simp [h]
  · unfold checkImageExists execIgnore
    cases h : env (probeInvocation url name ver) <;> simp [h]

/-- Claim C3 instance at a concrete environment and reference. -/
theorem claim_c3_witness :
    (((checkImageExists envOk "reg" "app" "v1").1 = true
      ↔ envOk (probeInvocation "reg" "app" "v1") = .exit 0)
    ∧ (checkImageExists envOk "reg" "app" "v1").2.2 ≠ []) :=
  claim_c3_probe_never_raises envOk "reg" "app" "v1"

/-- Claim C4 evidence: on the same request and filesystem (the Dockerfile
present at `my-app/Dockerfile`, the project-path-joined location), the
classic build of src/src/build.ts passes its pre-flight check, while the
buildx build of src/unnamed/part_003 resolves the Dockerfile name against
the working directory instead — `/w/Dockerfile` — and fails with the
Dockerfile-missing error without recording any subprocess; this
contradicts both the claim and the doc comment of the buildx build, which
says the project path contains the Dockerfile. -/
theorem claim_c4_evidence :
    resolvePath "/w" "Dockerfile" = "/w/Dockerfile"
    ∧ joinPath "my-app" "Dockerfile" = "my-app/Dockerfile"
    ∧ buildBuildx envOk (fun p => p == "my-app/Dockerfile") "/w" "my-app"
        "Dockerfile" "app" "v1" "reg" "" true
      = (.error "❌ Failed to build: Error: ❌ Dockerfile not found at: /w/Dockerfile", [], [])
    ∧ (buildClassic envOk (fun p => p == "my-app/Dockerfile") "my-app"
        "Dockerfile" "app" "v1").1 = .ok () := by
  refine ⟨rfl, rfl, rfl, rfl⟩

/-- Claim C7 counterexample: with an empty raw argument string the buildx
build invocation carries one extra empty-string token (JavaScript
`"".trim().split(/\s+/)` is `[""]`), not zero extra tokens as claimed. -/
theorem claim_c7_counterexample :
    (buildBuildx envOk fsAll "/w" "p" "Dockerfile" "app" "v1" "reg" "" false).2.1
      = [⟨"docker", ["buildx", "build", "-t", "reg/app:v1", "-f", "/w/Dockerfile",
          "p", "", "--push"], none⟩]
    ∧ jsSplitWs "" = [""] := by
  refine ⟨by decide, rfl⟩

/-- Claim C7 (amended): the extra build arguments are produced by
JavaScript-style splitting of the trimmed raw string on whitespace runs
and appended verbatim to the buildx invocation right before `--push`; a
blank raw string contributes exactly one empty token (not zero), and a
non-blank raw string contributes exactly its whitespace-separated tokens. -/
theorem claim_c7_amended (env : ExecEnv) (fs : String → Bool)
    (cwd projectPath dockerfileName imageName version registryUrl argsRaw : String)
    (pullLatest : Bool)
    (hfs : fs (resolvePath cwd dockerfileName) = true) :
    (buildBuildx env fs cwd projectPath dockerfileName imageName version
        registryUrl argsRaw pullLatest).2.1.getLast?
      = some (buildxInvocation (resolvePath cwd dockerfileName) projectPath
          (fullImageName registryUrl imageName version) (jsSplitWs argsRaw))
    ∧ jsSplitWs "" = [""]
    ∧ jsSplitWs "--no-cache  --pull" = ["--no-cache", "--pull"] := by
  refine ⟨?_, by decide, by decide⟩
  unfold buildBuildx
  simp only [hfs, if_true]
  cases hb : execDefault env (buildxInvocation (resolvePath cwd dockerfileName)
      projectPath (fullImageName registryUrl imageName version) (jsSplitWs argsRaw)) <;>
    simp [hb, List.getLast?_append_cons]

/-- Claim C7 amended, instance: the buildx invocation is last in the trace
and the blank-args split yields the single empty token. -/
theorem claim_c7_witness :
    (buildBuildx envOk fsAll "/w" "my-app" "Dockerfile" "app" "v1" "reg" "" true).2.1.getLast?
      = some (buildxInvocation (resolvePath "/w" "Dockerfile") "my-app"
          (fullImageName "reg" "app" "v1") (jsSplitWs ""))
    ∧ jsSplitWs "" = [""]
    ∧ jsSplitWs "--no-cache  --pull" = ["--no-cache", "--pull"] :=
  claim_c7_amended envOk fsAll "/w" "my-app" "Dockerfile" "app" "v1" "reg" "" true rfl

/-- Claim C9 counterexample: when only the push of the `:latest` alias
fails, the thrown push failure names the VERSIONED remote reference
`reg/app:v1`, and the failed reference `reg/app:latest` appears nowhere in
the message — the claim that the failure names the failed reference is
false.  The last recorded invocation confirms the failing operation was
the latest push. -/
theorem claim_c9_counterexample :
    (pushWithLatest envLatestPushFails "reg" "app" "v1").1
      = .error "❌ Failed to push reg/app:v1: Error: The process failed with exit code 1"
    ∧ containsSub "❌ Failed to push reg/app:v1: Error: The process failed with exit code 1"
        "reg/app:latest" = false
    ∧ containsSub "❌ Failed to push reg/app:v1: Error: The process failed with exit code 1"
        "reg/app:v1" = true
    ∧ (pushWithLatest envLatestPushFails "reg" "app" "v1").2.1.getLast?
      = some (pushInvocation "reg/app:latest") := by
  refine ⟨rfl, by decide, by decide, rfl⟩

/-- Claim C5: with `pull-latest` enabled, any failure of the best-effort
pull of `registry/name:latest` is demoted to a warning log and does not
abort the run — the build invocation is still performed and the build
step still succeeds. -/
theorem claim_c5_pull_best_effort (env : ExecEnv) (fs : String → Bool)
    (cwd projectPath dockerfileName imageName version registryUrl argsRaw : String)
    (hfs : fs (resolvePath cwd dockerfileName) = true)
    (hpull : ∃ m, execDefault env (pullInvocation registryUrl imageName) = .error m)
    (hbuild : execDefault env (buildxInvocation (resolvePath cwd dockerfileName)
        projectPath (fullImageName registryUrl imageName version)
        (jsSplitWs argsRaw)) = .ok 0) :
    (buildBuildx env fs cwd projectPath dockerfileName imageName version
        registryUrl argsRaw true).1 = .ok ()
    ∧ (buildBuildx env fs cwd projectPath dockerfileName imageName version
        registryUrl argsRaw true).2.1
      = [pullInvocation registryUrl imageName,
         buildxInvocation (resolvePath cwd dockerfileName) projectPath
           (fullImageName registryUrl imageName version) (jsSplitWs argsRaw)]
    ∧ ∃ w, LogEntry.warning w
        ∈ (buildBuildx env fs cwd projectPath dockerfileName imageName version
            registryUrl argsRaw true).2.2 := by
  obtain ⟨m, hm⟩ := hpull
  unfold buildBuildx pullPhase
  simp only [hfs, if_true, hm, hbuild]
  refine ⟨by simp, by simp, ?_⟩
  exact ⟨"⚠️ Failed to pull " ++ registryUrl ++ "/" ++ imageName
    ++ ":latest: " ++ errStr m, by simp⟩

/-- Claim C5 instance: in the concrete environment where only the pull
fails, the buildx build still succeeds and records pull then build. -/
theorem claim_c5_witness :
    (buildBuildx envPullFails fsAll "/w" "my-app" "Dockerfile" "app" "v1"
        "reg" "" true).1 = .ok ()
    ∧ (buildBuildx envPullFails fsAll "/w" "my-app" "Dockerfile" "app" "v1"
        "reg" "" true).2.1
      = [pullInvocation "reg" "app",
         buildxInvocation (resolvePath "/w" "Dockerfile") "my-app"
           (fullImageName "reg" "app" "v1") (jsSplitWs "")] :=
  ⟨(claim_c5_pull_best_effort envPullFails fsAll "/w" "my-app" "Dockerfile"
      "app" "v1" "reg" "" rfl ⟨"The process failed with exit code 1", rfl⟩ rfl).1,
   (claim_c5_pull_best_effort envPullFails fsAll "/w" "my-app" "Dockerfile"
      "app" "v1" "reg" "" rfl ⟨"The process failed with exit code 1", rfl⟩ rfl).2.1⟩

/-- Claim C2: whenever a required input field is empty, the run fails with
a single input-validation report, emits no outputs, and records zero
subprocess invocations. -/
theorem claim_c2_validation_blocks (bk : BuilderKind) (env : ExecEnv)
    (fs : String → Bool) (cwd : String) (i : Input)
    (h : i.projectPath = "" ∨ i.imageName = "" ∨ i.version = ""
      ∨ i.registryUrl = "" ∨ i.registryUsername = "" ∨ i.registryPassword = "") :
    (runAction bk env fs cwd i).1.outputs = []
    ∧ (runAction bk env fs cwd i).1.failed.isSome = true
    ∧ (runAction bk env fs cwd i).2 = [] := by
  have hv : (validationError i).isSome = true := by
    unfold validationError
    rcases h with h | h | h | h | h | h <;> simp [h] <;> split_ifs <;> simp
  rw [Option.isSome_iff_exists] at hv
  obtain ⟨m, hm⟩ := hv
  simp [runAction, hm]

/-- Claim C2 instance at a record whose project path is empty. -/
theorem claim_c2_witness :
    (runAction .classic envOk fsAll "/w" iEmpty).1.outputs = []
    ∧ (runAction .classic envOk fsAll "/w" iEmpty).1.failed.isSome = true
    ∧ (runAction .classic envOk fsAll "/w" iEmpty).2 = [] :=
  claim_c2_validation_blocks .classic envOk fsAll "/w" iEmpty (Or.inl rfl)

/-- Claim C10: output emission is all-or-nothing: when validation passes
and the orchestrator succeeds, exactly the four outputs are emitted
together and no failure is reported; when validation fails or the
orchestrator throws, no output is emitted and a single failure report is
produced. -/
theorem claim_c10_outputs_all_or_nothing (bk : BuilderKind) (env : ExecEnv)
    (fs : String → Bool) (cwd : String) (i : Input) :
    (validationError i = none → ∀ r, (docker bk env fs cwd i).1 = .ok r →
      (runAction bk env fs cwd i).1
        = ⟨[("image", r.image), ("tag", r.tag), ("href", r.href),
            ("skipped", if r.skipped then "true" else "false")], none⟩)
    ∧ (∀ m, validationError i = some m →
      (runAction bk env fs cwd i).1 = ⟨[], some ("❌ Action failed: " ++ m)⟩)
    ∧ (∀ m, validationError i = none → (docker bk env fs cwd i).1 = .error m →
      (runAction bk env fs cwd i).1 = ⟨[], some ("❌ Action failed: " ++ m)⟩) := by
  refine ⟨fun hv r hr => ?_, fun m hm => ?_, fun m hv hm => ?_⟩
  · rcases hd : docker bk env fs cwd i with ⟨res, t, l⟩
    rw [hd] at hr
    simp only at hr
    subst hr
    simp [runAction, hv, hd]
  · simp [runAction, hm]
  · rcases hd : docker bk env fs cwd i with ⟨res, t, l⟩
    rw [hd] at hm
    simp only at hm
    subst hm
    simp [runAction, hv, hd]

/-- Claim C10 instance: a skipped successful run emits exactly the four
outputs with no failure report. -/
theorem claim_c10_witness :
    (runAction .classic envOk fsAll "/w" iStd).1
      = ⟨[("image", "app"), ("tag", "v1"), ("href", "reg/app:v1"),
          ("skipped", "true")], none⟩ :=
  (claim_c10_outputs_all_or_nothing .classic envOk fsAll "/w" iStd).1 rfl
    ⟨"app", "v1", "reg/app:v1", true⟩ rfl

/-- Claim C1: for every valid request (engine available, login
succeeding), any successful orchestrator result carries
`href = registry-url/image-name:version`; when the existence probe
returns true the orchestrator returns `skipped = true` having recorded
only the engine, login, and probe invocations — no build or push
subprocess; and when the probe returns false and both the build and the
push step succeed it returns `skipped = false`. -/
theorem claim_c1_orchestrator (bk : BuilderKind) (env : ExecEnv)
    (fs : String → Bool) (cwd : String) (i : Input)
    (_hvalid : validationError i = none)
    (heng : execDefault env engineInvocation = .ok 0)
    (hlog : execDefault env (loginInvocation i.registryUrl i.registryUsername
        i.registryPassword) = .ok 0) :
    (∀ o, (docker bk env fs cwd i).1 = .ok o
      → o.href = fullImageName i.registryUrl i.imageName i.version)
    ∧ ((checkImageExists env i.registryUrl i.imageName i.version).1 = true →
      (docker bk env fs cwd i).1
        = .ok ⟨i.imageName, i.version,
            fullImageName i.registryUrl i.imageName i.version, true⟩
      ∧ (docker bk env fs cwd i).2.1
        = [engineInvocation,
           loginInvocation i.registryUrl i.registryUsername i.registryPassword,
           probeInvocation i.registryUrl i.imageName i.version]
      ∧ ((docker bk env fs cwd i).2.1.all
          fun inv => !(isBuildOrPushInv inv)) = true)
    ∧ ((checkImageExists env i.registryUrl i.imageName i.version).1 = false →
      (runBuild bk env fs cwd i).1 = .ok () →
      (pushWithLatest env i.registryUrl i.imageName i.version).1 = .ok () →
      (docker bk env fs cwd i).1
        = .ok ⟨i.imageName, i.version,
            fullImageName i.registryUrl i.imageName i.version, false⟩) := by
  have hE : ensureDockerEngine env
      = (.ok (), [engineInvocation], [.info "✅ Docker engine is available and ready"]) := by
    unfold ensureDockerEngine; rw [heng]
  have hL : registryLogin env i.registryUrl i.registryUsername i.registryPassword
      = (.ok (), [loginInvocation i.registryUrl i.registryUsername i.registryPassword],
         [.info ("✅ Successfully logged into registry: " ++ i.registryUrl)]) := by
    unfold registryLogin; rw [hlog]
  refine ⟨fun o h => (docker_ok_meta bk env fs cwd i o h).2.2, fun hprobe => ?_, fun hprobe hb hp => ?_⟩
  · rcases hC : checkImageExists env i.registryUrl i.imageName i.version with ⟨b, t3, l3⟩
    have hbt : b = true := by rw [hC] at hprobe; exact hprobe
    subst hbt
    have ht3 : t3 = [probeInvocation i.registryUrl i.imageName i.version] := by
      have h3 := checkImageExists_trace env i.registryUrl i.imageName i.version
      rw [hC] at h3; exact h3
    subst ht3
    refine ⟨by simp [docker, hE, hL, hC], by simp [docker, hE, hL, hC], ?_⟩
    have htr : (docker bk env fs cwd i).2.1
        = [engineInvocation,
           loginInvocation i.registryUrl i.registryUsername i.registryPassword,
           probeInvocation i.registryUrl i.imageName i.version] := by
      simp [docker, hE, hL, hC]
    rw [htr]
    rfl
  · rcases hC : checkImageExists env i.registryUrl i.imageName i.version with ⟨b, t3, l3⟩
    have hbf : b = false := by rw [hC] at hprobe; exact hprobe
    subst hbf
    rcases hB : runBuild bk env fs cwd i with ⟨rb, t4, l4⟩
    have hrb : rb = .ok () := by rw [hB] at hb; exact hb
    subst hrb
    rcases hP : pushWithLatest env i.registryUrl i.imageName i.version with ⟨rp, t5, l5⟩
    have hrp : rp = .ok () := by rw [hP] at hp; exact hp
    subst hrp
    simp [docker, hE, hL, hC, hB, hP]

/-- Claim C1 instance: a concrete valid request whose probe finds the
image is skipped with exactly the three pre-build invocations recorded. -/
theorem claim_c1_witness :
    (docker .classic envOk fsAll "/w" iStd).1
      = .ok ⟨"app", "v1", "reg/app:v1", true⟩
    ∧ (docker .classic envOk fsAll "/w" iStd).2.1
      = [engineInvocation, loginInvocation "reg" "bob" "hunter2",
         probeInvocation "reg" "app" "v1"]
    ∧ ((docker .classic envOk fsAll "/w" iStd).2.1.all
        fun inv => !(isBuildOrPushInv inv)) = true :=
  (claim_c1_orchestrator .classic envOk fsAll "/w" iStd rfl rfl rfl).2.1 rfl

/-- Claim C6: the registry login records exactly one subprocess whose
argument vector is the fixed five-token login command and whose stdin
payload is the password; the password occurs in that argument vector only
if it textually coincides with one of the other tokens; and for
environments whose subprocess outcomes do not depend on stdin, the
argument vectors of ALL subprocesses spawned by the orchestrator are
unchanged when only the password field of the input differs — the
password reaches subprocesses through stdin alone. -/
theorem claim_c6_password_stdin_only (bk : BuilderKind) (env : ExecEnv)
    (fs : String → Bool) (cwd : String) (i : Input) (url user pw : String)
    (henv : ∀ inv : Invocation, env inv = env { inv with stdinData := none }) :
    (registryLogin env url user pw).2.1 = [loginInvocation url user pw]
    ∧ (pw ≠ url → pw ≠ user → pw ≠ "login" → pw ≠ "-u" → pw ≠ "--password-stdin" →
        ∀ inv ∈ (registryLogin env url user pw).2.1, pw ∉ inv.argv)
    ∧ (∀ j : Input, j.projectPath = i.projectPath → j.imageName = i.imageName →
        j.dockerfileName = i.dockerfileName → j.version = i.version →
        j.registryUrl = i.registryUrl → j.registryUsername = i.registryUsername →
        j.args = i.args → j.pullLatest = i.pullLatest →
        (docker bk env fs cwd i).2.1.map Invocation.argv
          = (docker bk env fs cwd j).2.1.map Invocation.argv) := by
  have hLenv : ∀ u s pwa pwb, env (loginInvocation u s pwa) = env (loginInvocation u s pwb) := by
    intro u s pwa pwb
    rw [henv (loginInvocation u s pwa), henv (loginInvocation u s pwb)]
    rfl
  refine ⟨registryLogin_trace env url user pw,
    fun hne1 hne2 hne3 hne4 hne5 inv hmem => ?_, fun j h1 h2 h3 h4 h5 h6 h7 h8 => ?_⟩
  · rw [registryLogin_trace env url user pw] at hmem
    simp at hmem
    subst hmem
    simp [loginInvocation, hne1, hne2, hne3, hne4, hne5]
  · have keyD : execDefault env (loginInvocation i.registryUrl i.registryUsername j.registryPassword)
        = execDefault env (loginInvocation i.registryUrl i.registryUsername i.registryPassword) := by
      unfold execDefault
      rw [hLenv i.registryUrl i.registryUsername j.registryPassword i.registryPassword]
    have hRL1 : (registryLogin env i.registryUrl i.registryUsername j.registryPassword).1
        = (registryLogin env i.registryUrl i.registryUsername i.registryPassword).1 := by
      unfold registryLogin
      rw [keyD]
      cases hx : execDefault env (loginInvocation i.registryUrl i.registryUsername i.registryPassword) <;>
        simp [hx]
    have hRL2 : (registryLogin env i.registryUrl i.registryUsername j.registryPassword).2.1.map Invocation.argv
        = (registryLogin env i.registryUrl i.registryUsername i.registryPassword).2.1.map Invocation.argv := by
      rw [registryLogin_trace, registryLogin_trace]
      simp [loginInvocation]
    have hRB : runBuild bk env fs cwd j = runBuild bk env fs cwd i := by
      cases bk <;> unfold runBuild <;> simp only [h1, h2, h3, h4, h5, h6, h7, h8]
    unfold docker
    simp only [h1, h2, h3, h4, h5, h6, h7, h8]
    rw [hRB]
    rcases hA : registryLogin env i.registryUrl i.registryUsername i.registryPassword with ⟨ra, ta, la⟩
    rcases hB2 : registryLogin env i.registryUrl i.registryUsername j.registryPassword with ⟨rb2, tb, lb⟩
    have hr : rb2 = ra := by
      have hh := hRL1
      rw [hA, hB2] at hh
      exact hh
    have ht : tb.map Invocation.argv = ta.map Invocation.argv := by
      have hh := hRL2
      rw [hA, hB2] at hh
      exact hh
    subst hr
    rcases hE : ensureDockerEngine env with ⟨re, t1, l1⟩
    cases re with
    | error m => simp
    | ok _ =>
      cases rb2 with
      | error m => simp [List.map_append, ht]
      | ok _ =>
        rcases hC : checkImageExists env i.registryUrl i.imageName i.version with ⟨b, t3, l3⟩
        cases b with
        | true => simp [List.map_append, ht]
        | false =>
          rcases hB3 : runBuild bk env fs cwd i with ⟨rb, t4, l4⟩
          cases rb with
          | error m => simp [List.map_append, ht]
          | ok _ =>
            rcases hP : pushWithLatest env i.registryUrl i.imageName i.version with ⟨rp, t5, l5⟩
            cases rp with
            | error m => simp [List.map_append, ht]
            | ok _ => simp [List.map_append, ht]

/-- Claim C6 instance: the login trace carries the password via stdin
only, and changing only the password leaves every recorded argument
vector of a full orchestrator run unchanged. -/
theorem claim_c6_witness :
    (registryLogin envOk "reg" "bob" "hunter2").2.1
      = [loginInvocation "reg" "bob" "hunter2"]
    ∧ (docker .classic envOk fsAll "/w" iStd).2.1.map Invocation.argv
      = (docker .classic envOk fsAll "/w"
          { iStd with registryPassword := "s3cr3t" }).2.1.map Invocation.argv :=
  ⟨(claim_c6_password_stdin_only .classic envOk fsAll "/w" iStd "reg" "bob" "hunter2"
      (fun _ => rfl)).1,
   (claim_c6_password_stdin_only .classic envOk fsAll "/w" iStd "reg" "bob" "hunter2"
      (fun _ => rfl)).2.2 { iStd with registryPassword := "s3cr3t" }
      rfl rfl rfl rfl rfl rfl rfl rfl⟩

/-- Claim C8 counterexample: composing the orchestrator of
src/src/index.ts with the buildx build of src/unnamed/part_003, a
non-skipped successful run records BOTH a build invocation that pushes
directly (`buildx ... --push`) AND separate Publisher tag/push
invocations afterwards — the run builds with integrated push and then
still invokes the Publisher. -/
theorem claim_c8_counterexample :
    (docker .buildx envProbeMiss fsAll "/w" iStd).1
      = .ok ⟨"app", "v1", "reg/app:v1", false⟩
    ∧ (docker .buildx envProbeMiss fsAll "/w" iStd).2.1.any isIntegratedPushBuild = true
    ∧ (docker .buildx envProbeMiss fsAll "/w" iStd).2.1.any isPublisherPushInv = true := by
  refine ⟨rfl, rfl, rfl⟩

/-- Claim C8 (amended): the orchestrator invokes the Publisher on every
non-skipped run without conditioning on the builder; the claimed
exclusivity holds only for the classic-builder composition, whose runs
never contain an integrated-push build invocation. -/
theorem claim_c8_amended (env : ExecEnv) (fs : String → Bool)
    (cwd : String) (i : Input) :
    ∀ inv ∈ (docker .classic env fs cwd i).2.1,
      isIntegratedPushBuild inv = false := by
  intro inv h
  rcases docker_trace_mem .classic env fs cwd i inv h with h1 | h1 | h1 | h1 | h1
  · subst h1; rfl
  · subst h1; rfl
  · subst h1; rfl
  · have h2 := buildClassic_trace_sub env fs i.projectPath i.dockerfileName
      i.imageName i.version inv h1
    subst h2; rfl
  · rcases pushWithLatest_trace_sub env i.registryUrl i.imageName i.version inv h1
      with h2 | h2 | h2 | h2 <;> (subst h2; rfl)

/-- Claim C8 amended, instance at a concrete trace member. -/
theorem claim_c8_witness :
    isIntegratedPushBuild engineInvocation = false :=
  claim_c8_amended envOk fsAll "/w" iStd engineInvocation (by decide)

/-- Claim C9 (amended): the push step tags and pushes the versioned
reference first and the latest reference second (its recorded trace is
always a prefix of that four-invocation sequence, cut at the first
failure); it succeeds exactly when all four operations succeed, so both
references must succeed; and any failure aborts as a push failure whose
message names the VERSIONED remote reference, whichever operation
failed. -/
theorem claim_c9_amended (env : ExecEnv) (url name ver : String) :
    (pushWithLatest env url name ver).2.1
      = [tagInvocation (name ++ ":" ++ ver) (fullImageName url name ver),
         pushInvocation (fullImageName url name ver),
         tagInvocation (name ++ ":" ++ ver) (url ++ "/" ++ name ++ ":latest"),
         pushInvocation (url ++ "/" ++ name ++ ":latest")].take
        (pushWithLatest env url name ver).2.1.length
    ∧ ((pushWithLatest env url name ver).1 = .ok ()
        ↔ execDefault env (tagInvocation (name ++ ":" ++ ver) (fullImageName url name ver)) = .ok 0
          ∧ execDefault env (pushInvocation (fullImageName url name ver)) = .ok 0
          ∧ execDefault env (tagInvocation (name ++ ":" ++ ver) (url ++ "/" ++ name ++ ":latest")) = .ok 0
          ∧ execDefault env (pushInvocation (url ++ "/" ++ name ++ ":latest")) = .ok 0)
    ∧ (∀ m, (pushWithLatest env url name ver).1 = .error m
        → ∃ s, m = "❌ Failed to push " ++ fullImageName url name ver ++ ": " ++ errStr s) := by
  simp only [pushWithLatest]
  cases h1 : execDefault env (tagInvocation (name ++ ":" ++ ver) (fullImageName url name ver)) with
  | error m0 =>
      refine ⟨rfl, by simp, fun m hm => ?_⟩
      simp at hm
      exact ⟨m0, by rw [← hm]; rfl⟩
  | ok c =>
    have hc := execDefault_ok env _ c h1
    subst hc
    cases h2 : execDefault env (pushInvocation (fullImageName url name ver)) with
    | error m0 =>
        refine ⟨rfl, by simp, fun m hm => ?_⟩
        simp at hm
        exact ⟨m0, by rw [← hm]; rfl⟩
    | ok c =>
      have hc := execDefault_ok env _ c h2
      subst hc
      cases h3 : execDefault env (tagInvocation (name ++ ":" ++ ver) (url ++ "/" ++ name ++ ":latest")) with
      | error m0 =>
          refine ⟨rfl, by simp, fun m hm => ?_⟩
          simp at hm
          exact ⟨m0, by rw [← hm]; rfl⟩
      | ok c =>
        have hc := execDefault_ok env _ c h3
        subst hc
        cases h4 : execDefault env (pushInvocation (url ++ "/" ++ name ++ ":latest")) with
        | error m0 =>
            refine ⟨rfl, by simp, fun m hm => ?_⟩
            simp at hm
            exact ⟨m0, by rw [← hm]; rfl⟩
        | ok c =>
          have hc := execDefault_ok env _ c h4
          subst hc
          exact ⟨rfl, by simp, fun m hm => by simp at hm⟩

/-- Claim C9 amended, instance in the environment where only the latest
push fails: the trace is the four-step prefix and success is equivalent
to all four operations succeeding. -/
theorem claim_c9_witness :
    (pushWithLatest envLatestPushFails "reg" "app" "v1").2.1
      = [tagInvocation ("app" ++ ":" ++ "v1") (fullImageName "reg" "app" "v1"),
         pushInvocation (fullImageName "reg" "app" "v1"),
         tagInvocation ("app" ++ ":" ++ "v1") ("reg" ++ "/" ++ "app" ++ ":latest"),
         pushInvocation ("reg" ++ "/" ++ "app" ++ ":latest")].take
        (pushWithLatest envLatestPushFails "reg" "app" "v1").2.1.length
    ∧ ((pushWithLatest envLatestPushFails "reg" "app" "v1").1 = .ok ()
        ↔ execDefault envLatestPushFails (tagInvocation ("app" ++ ":" ++ "v1") (fullImageName "reg" "app" "v1")) = .ok 0
          ∧ execDefault envLatestPushFails (pushInvocation (fullImageName "reg" "app" "v1")) = .ok 0
          ∧ execDefault envLatestPushFails (tagInvocation ("app" ++ ":" ++ "v1") ("reg" ++ "/" ++ "app" ++ ":latest")) = .ok 0
          ∧ execDefault envLatestPushFails (pushInvocation ("reg" ++ "/" ++ "app" ++ ":latest")) = .ok 0) :=
  ⟨(claim_c9_amended envLatestPushFails "reg" "app" "v1").1,
   (claim_c9_amended envLatestPushFails "reg" "app" "v1").2.1⟩

end DockerBuildPush
